import Mathlib

/-!
Verification of the koala-diff core (`src/lib.rs`, `diff_files`).

The Rust core reads two tabular datasets, probes first-key uniqueness, applies a
join-explosion guard, runs one batched statistics pass over the inner join of the
two datasets, optionally materializes a bounded buffer of modified rows for
samples, and assembles a per-column report dictionary.

Shallow embedding choices:
* A dataset (`DataFrame`) is its schema (ordered column name/dtype pairs, as the
  lazy frame's `collect_schema` returns) plus a list of rows; a cell is
  `Option Val`, `none` being a null.
* The Polars engine's physical passes are deterministic over these values; the
  possibility that a `collect()` call fails for environmental reasons (resource
  exhaustion etc.) is modelled by an `Engine` oracle with one flag per
  full-table pass issued by `diff_files`: the main statistics pass
  (`collect()` at the `stats_res` query, propagated with `?`) and the sample
  pass (`collect().ok()`, swallowed).
* Rust panics (out-of-bounds indexing `keys_strs[0]`) are modelled by the outer
  `Option` of the result: `none` means the call panics instead of returning.
* Machine counts (`u32`/`f64` extractions) are modelled as `Nat`: the counts the
  code extracts are exact at these magnitudes; `saturating_sub` is `Nat`
  subtraction, which saturates at zero.
* `match_rate` (an `f64` percentage built by exact division of small integers)
  and numeric casts to `Float64` are modelled over `ℚ`.
-/

namespace KoalaDiff

/-- A single non-null cell value of a column: Polars values restricted to the
kinds the diff logic distinguishes (numerics are collapsed to one exact numeric
carrier, standing for the `Float64` cast target). -/
inductive Val where
  | vNum (q : ℚ)
  | vStr (s : String)
  | vBool (b : Bool)
  deriving DecidableEq, Repr

/-- A cell of a row: `none` is a null. -/
abbrev Cell := Option Val

/-- A row, aligned positionally with the owning frame's schema. -/
abbrev Row := List Cell

abbrev ColName := String

/-- Declared column type (the `DataType` of a schema entry), restricted to the
distinctions `diff_files` makes (`is_numeric` vs not). -/
inductive DType where
  | int
  | float
  | str
  | bool
  | nullType
  | other
  deriving DecidableEq, Repr

/-- Translation of `DataType::is_numeric` for the modelled dtypes. -/
def DType.isNumeric : DType → Bool
  | .int => true
  | .float => true
  | _ => false

/-- A dataset: the schema `collect_schema` returns plus the row data the lazy
scans range over. -/
structure DataFrame where
  schema : List (ColName × DType)
  rows : List Row
  deriving Repr

/-- `schema.contains(name)` of the source (lines 153, 156, 259). -/
def DataFrame.hasCol (df : DataFrame) (c : ColName) : Bool :=
  df.schema.any (fun p => p.1 == c)

/-- `schema.get(name)` of the source (lines 158, 259). -/
def DataFrame.dtypeOf (df : DataFrame) (c : ColName) : Option DType :=
  (df.schema.find? (fun p => p.1 == c)).map (fun p => p.2)

/-- Resolve column `c` in row `r` of `df`: `none` when the column is absent
from the schema (the engine errors on such a reference), `some cell` otherwise.
Rows are positionally aligned with the schema; a too-short row reads as null. -/
def DataFrame.getCell (df : DataFrame) (c : ColName) (r : Row) : Option Cell :=
  (df.schema.findIdx? (fun p => p.1 == c)).map (fun i => r.getD i none)

/-- Left-side value of column `c` on a joined row (the un-suffixed `col(name)`
of the source); only used for columns present in the left schema. -/
def cellL (A : DataFrame) (c : ColName) (p : Row × Row) : Cell :=
  (A.getCell c p.1).getD none

/-- Right-side value of column `c` on a joined row (the source's
`col(format!("{}_right", name))`, which resolves to B's column `c`). -/
def cellR (B : DataFrame) (c : ColName) (p : Row × Row) : Cell :=
  (B.getCell c p.2).getD none

/-- Polars `eq_missing`: null equals null, null differs from non-null,
non-nulls compare by value. `Option` equality has exactly this shape. -/
def eqMissing (a b : Cell) : Bool := a == b

/-- The per-row, per-column "differs" predicate of the statistics pass:
`col(name).eq_missing(col(name_right)).not()` (source line 159). Also the
`val_a != val_b` test of the sample loop (line 324), since `AnyValue` equality
treats two nulls as equal. -/
def colDiffers (A B : DataFrame) (c : ColName) (p : Row × Row) : Bool :=
  !(eqMissing (cellL A c p) (cellR B c p))

/-- The row-level modified mask: the OR, over the compared columns, of the
per-column "differs" predicates (source lines 167-170). -/
def rowMask (A B : DataFrame) (cols : List ColName) (p : Row × Row) : Bool :=
  cols.any (fun c => colDiffers A B c p)

/-- Join-key match for one candidate row pair: every key column equal, with
null keys never matching (Polars inner join default `join_nulls = false`). -/
def keyMatch (A B : DataFrame) (keys : List ColName) (ra rb : Row) : Bool :=
  keys.all (fun k =>
    match A.getCell k ra, B.getCell k rb with
    | some (some va), some (some vb) => va == vb
    | _, _ => false)

/-- The inner join of A and B on `keys` (source lines 76-81): every pair of
rows whose key tuples match, with both inputs' row order preserved. -/
def innerJoin (A B : DataFrame) (keys : List ColName) : List (Row × Row) :=
  A.rows.flatMap (fun ra =>
    (B.rows.filter (fun rb => keyMatch A B keys ra rb)).map (fun rb => (ra, rb)))

/-- `col(key).n_unique()` over a frame: number of distinct values of the key
column, a null counting as one distinct value. -/
def uniqueCount (df : DataFrame) (c : ColName) : Nat :=
  ((df.rows.map (fun r => (df.getCell c r).getD none)).dedup).length

/-- The structured errors `diff_files` can return (all surfaced to the caller
as Python exceptions): the uniqueness probe failing (missing key column or
engine failure while reading a file, source lines 85-94), the explosion guard
(line 140), and the main statistics pass failing (line 211). -/
inductive DiffError where
  | metaError (which : String)
  | explosionError (dupsA dupsB : Nat)
  | statsError
  deriving DecidableEq, Repr

/-- The `get_meta` closure (source lines 85-118): one lightweight pass
computing `(total, unique)` over the leading key column; errors when the
column cannot be resolved. The duplicate-keys `println!` warning is a side
effect with no bearing on the returned data and is not modelled. -/
def getMeta (df : DataFrame) (which : String) (key : ColName) :
    Except DiffError (Nat × Nat) :=
  if df.hasCol key then
    Except.ok (df.rows.length, uniqueCount df key)
  else
    Except.error (DiffError.metaError which)

/-- Environmental success/failure of the two full-table engine passes issued
after the guard: the batched statistics `collect()` (propagated with `?`) and
the sample `collect()` (its result is taken with `.ok()`). -/
structure Engine where
  statsOk : Bool
  sampleOk : Bool
  deriving DecidableEq, Repr

/-- The columns the statistics pass compares: schema-A order, key columns
skipped, columns absent from schema B skipped (source lines 151-156). -/
def comparedColumns (A B : DataFrame) (keys : List ColName) : List ColName :=
  (A.schema.filter (fun p => !(keys.contains p.1) && B.hasCol p.1)).map (fun p => p.1)

/-- `cast(DataType::Float64)` of a value for the numeric-delta expression:
numeric values cast exactly, anything else contributes a null. -/
def toQ : Val → Option ℚ
  | .vNum q => some q
  | _ => none

/-- The conditional absolute value of the source (lines 188-190):
`when(diff > 0).then(diff).otherwise(diff * -1)`. -/
def absQ (q : ℚ) : ℚ := if 0 < q then q else q * (-1)

/-- Binary maximum on the exact numeric carrier (the engine's `max`
reduction on two values). -/
def maxQ (a b : ℚ) : ℚ := if a ≤ b then b else a

/-- The `{name}_max_diff` aggregate (source lines 185-191) as extracted on
line 290: maximum of `|cast(A) - cast(B)|` over the joined rows on which both
sides cast to a numeric value (null operands propagate to null and are ignored
by `max`), with the `unwrap_or(0.0)` default when no row contributes. -/
def maxAbsDelta (A B : DataFrame) (c : ColName) (joined : List (Row × Row)) : ℚ :=
  (joined.filterMap (fun p =>
    match (cellL A c p).bind toQ, (cellR B c p).bind toQ with
    | some qa, some qb => some (absQ (qa - qb))
    | _, _ => none)).foldl maxQ 0

/-- Rendering of a cell for the sample strings (stand-in for the `Display` of
`AnyValue`; no claim constrains the exact text). -/
def showCell : Cell → String
  | none => "null"
  | some (Val.vNum q) => toString q
  | some (Val.vStr s) => s
  | some (Val.vBool b) => toString b

/-- The key descriptor of one sample row (source lines 325-330): `"k: v"`
pieces in key order, joined by single spaces (the source appends a trailing
space per piece and trims the result). -/
def keyDesc (A : DataFrame) (keys : List ColName) (p : Row × Row) : String :=
  String.intercalate " " (keys.map (fun k => k ++ ": " ++ showCell (cellL A k p)))

/-- The `"{} -> {}"` before/after string of one sample (source line 331). -/
def valDesc (A B : DataFrame) (c : ColName) (p : Row × Row) : String :=
  showCell (cellL A c p) ++ " -> " ++ showCell (cellR B c p)

/-- Per-column record of the `column_stats` dictionary; a field the source
only sets on some branches is an `Option`, `none` meaning the key is absent
from the Python dict. -/
structure ColStat where
  columnName : ColName
  isKey : Bool
  sourceType : DType
  targetType : Option DType
  totalCount : Option Nat := none
  matchCount : Option Nat := none
  nonMatchCount : Option Nat := none
  matchRate : Option ℚ := none
  allMatch : Bool
  maxValueDiff : Option ℚ := none
  nullCountDiff : Option Int := none
  sampleKeys : Option (List String) := none
  sampleValues : Option (List String) := none
  deriving DecidableEq, Repr

/-- The final result dictionary of `diff_files` (source lines 350-361). -/
structure DiffReport where
  totalRowsA : Nat
  totalRowsB : Nat
  matched : Nat
  identicalRows : Nat
  modifiedRows : Nat
  added : Nat
  removed : Nat
  columnStats : List ColStat
  deriving DecidableEq, Repr

/-- The per-column sample pick (source lines 312-337): only attempted when the
column's `diff_count` is positive; when the shared buffer was materialized,
take the first (at most) five buffer rows on which this very column differs;
when the buffer collect failed (`.ok()` gave `None`), no sample keys are set. -/
def samplePick (buf : Option (List (Row × Row))) (differs : Row × Row → Bool)
    (diffCount : Nat) : Option (List (Row × Row)) :=
  if 0 < diffCount then
    match buf with
    | some rows => some ((rows.filter differs).take 5)
    | none => none
  else none

/-- Assembly of one column's stats dict (source lines 250-347): the
column-missing-in-B branch, the key-column branch, and the full non-key
branch with counts, rate, numeric delta, null drift and samples. -/
def mkColStat (A B : DataFrame) (keys : List ColName) (joined : List (Row × Row))
    (matched : Nat) (buf : Option (List (Row × Row))) (name : ColName)
    (dtA : DType) : ColStat :=
  match B.dtypeOf name with
  | none =>
      { columnName := name, isKey := keys.contains name, sourceType := dtA,
        targetType := none, allMatch := false }
  | some dtB =>
      if keys.contains name then
        { columnName := name, isKey := keys.contains name, sourceType := dtA,
          targetType := some dtB, totalCount := some matched,
          matchCount := some matched, nonMatchCount := some 0,
          matchRate := some 100, allMatch := true }
      else
        { columnName := name, isKey := keys.contains name, sourceType := dtA,
          targetType := some dtB, totalCount := some matched,
          matchCount := some (matched - joined.countP (colDiffers A B name)),
          nonMatchCount := some (joined.countP (colDiffers A B name)),
          matchRate := some
            (if 0 < matched then
              ((matched - joined.countP (colDiffers A B name) : Nat) : ℚ)
                / (matched : ℚ) * 100
             else 100),
          allMatch := joined.countP (colDiffers A B name) == 0,
          maxValueDiff :=
            if dtA.isNumeric && dtB.isNumeric then
              some (maxAbsDelta A B name joined)
            else none,
          nullCountDiff := some
            ((joined.countP (fun p => cellR B name p == (none : Cell)) : Int)
              - (joined.countP (fun p => cellL A name p == (none : Cell)) : Int)),
          sampleKeys :=
            (samplePick buf (colDiffers A B name)
                (joined.countP (colDiffers A B name))).map
              (fun l => l.map (keyDesc A keys)),
          sampleValues :=
            (samplePick buf (colDiffers A B name)
                (joined.countP (colDiffers A B name))).map
              (fun l => l.map (valDesc A B name)) }

/-- The shared sample buffer (source lines 237-246): the joined view filtered
by the row-level modified mask, capped at 100 rows, materialized once. -/
def sampleBuffer (A B : DataFrame) (keys : List ColName) : List (Row × Row) :=
  ((innerJoin A B keys).filter
    (rowMask A B (comparedColumns A B keys))).take 100

/-- The sample buffer as `diff_files` holds it: absent when there is no
modified mask (no compared columns) and absent when the sample pass collect
failed (`.collect().ok()` gave `None`). -/
def theBuf (A B : DataFrame) (keys : List ColName) (sampleOk : Bool) :
    Option (List (Row × Row)) :=
  if (comparedColumns A B keys).isEmpty then none
  else if sampleOk then some (sampleBuffer A B keys) else none

/-- `_total_modified` (source lines 196-230): the sum of the row-level mask
over the joined rows, `0` when no mask was built (no compared columns). -/
def modifiedCount (A B : DataFrame) (keys : List ColName) : Nat :=
  if (comparedColumns A B keys).isEmpty then 0
  else (innerJoin A B keys).countP (rowMask A B (comparedColumns A B keys))

/-- Assembly of the full report (source lines 144-361) once the guard has
passed and the statistics pass succeeded: counts from the statistics pass,
saturating subtractions for `removed`/`added`/`identical_rows_count`, and the
per-column stats in schema-A order. -/
def buildReport (A B : DataFrame) (keys : List ColName) (sampleOk : Bool)
    (heightA heightB : Nat) : DiffReport :=
  { totalRowsA := heightA,
    totalRowsB := heightB,
    matched := (innerJoin A B keys).length,
    identicalRows := (innerJoin A B keys).length - modifiedCount A B keys,
    modifiedRows := modifiedCount A B keys,
    added := heightB - (innerJoin A B keys).length,
    removed := heightA - (innerJoin A B keys).length,
    columnStats := A.schema.map (fun p =>
      mkColStat A B keys (innerJoin A B keys) (innerJoin A B keys).length
        (theBuf A B keys sampleOk) p.1 p.2) }

/-- The whole `diff_files` (source lines 29-362) on two already-scanned
datasets. The outer `Option` is `none` when the call panics: with an empty key
list, `keys_strs[0]` (line 120) indexes out of bounds before anything else
runs. Otherwise, in source order: the two uniqueness probes (each can error),
the explosion guard (lines 126-142), then the batched statistics pass over the
joined view (errors if a key column cannot be resolved in either side or the
engine pass fails), then the swallowed sample pass and assembly. -/
def diff_files (A B : DataFrame) (keyCols : List ColName) (eng : Engine) :
    Option (Except DiffError DiffReport) :=
  match keyCols with
  | [] => none
  | key0 :: rest =>
      some (
        match getMeta A "File A" key0 with
        | Except.error e => Except.error e
        | Except.ok (heightA, uniqueA) =>
          match getMeta B "File B" key0 with
          | Except.error e => Except.error e
          | Except.ok (heightB, uniqueB) =>
            if (uniqueA < heightA ∨ uniqueB < heightB) ∧
                (1000 < heightA - uniqueA ∧ 1000 < heightB - uniqueB) then
              Except.error
                (DiffError.explosionError (heightA - uniqueA) (heightB - uniqueB))
            else if ¬ (((key0 :: rest).all
                  (fun k => A.hasCol k && B.hasCol k)) = true)
                ∨ eng.statsOk = false then
              Except.error DiffError.statsError
            else
              Except.ok
                (buildReport A B (key0 :: rest) eng.sampleOk heightA heightB))

/-- Result-shape observer: the call returned the explosion-guard error. -/
def isExplosionResult : Option (Except DiffError DiffReport) → Bool
  | some (Except.error (DiffError.explosionError _ _)) => true
  | _ => false

/-- Result-shape observer: the call returned some structured error. -/
def isErrorResult : Option (Except DiffError DiffReport) → Bool
  | some (Except.error _) => true
  | _ => false

/-- Lookup of one column's stats record in a report. -/
def findStat (r : DiffReport) (c : ColName) : Option ColStat :=
  r.columnStats.find? (fun s => s.columnName == c)

/-- A column present in a schema has a dtype there. -/
theorem hasCol_exists_dtype (df : DataFrame) (c : ColName)
    (h : df.hasCol c = true) : ∃ dt, df.dtypeOf c = some dt := by
  unfold DataFrame.hasCol at h
  unfold DataFrame.dtypeOf
  rcases List.any_eq_true.mp h with ⟨p, hp, hpc⟩
  have hs : (df.schema.find? (fun q => q.1 == c)).isSome := by
    rw [List.find?_isSome]
    exact ⟨p, hp, hpc⟩
  rcases Option.isSome_iff_exists.mp hs with ⟨q, hq⟩
  exact ⟨q.2, by rw [hq]; rfl⟩

/-- A successful uniqueness probe means the key column resolved and the pair
is exactly (row count, distinct first-key count). -/
theorem getMeta_ok (df : DataFrame) (w : String) (k : ColName) (p : Nat × Nat)
    (h : getMeta df w k = Except.ok p) :
    df.hasCol k = true ∧ p = (df.rows.length, uniqueCount df k) := by
  unfold getMeta at h
  split at h
  · refine ⟨by assumption, ?_⟩
    injection h with h2
    exact h2.symm
  · simp at h

/-- Inversion of a successful `diff_files` call: the report is the assembled
one, the statistics pass succeeded, and every key column resolved on both
sides. -/
theorem diff_files_ok_inv (A B : DataFrame) (ks : List ColName) (eng : Engine)
    (r : DiffReport) (h : diff_files A B ks eng = some (Except.ok r)) :
    r = buildReport A B ks eng.sampleOk A.rows.length B.rows.length ∧
    eng.statsOk = true ∧ (ks.all (fun k => A.hasCol k && B.hasCol k)) = true := by
  cases ks with
  | nil => simp [diff_files] at h
  | cons k0 rest =>
    simp only [diff_files, Option.some.injEq] at h
    cases hgA : getMeta A "File A" k0 with
    | error e => rw [hgA] at h; simp at h
    | ok pA =>
      cases hgB : getMeta B "File B" k0 with
      | error e => rw [hgA, hgB] at h; simp at h
      | ok pB =>
        obtain ⟨hcA, hpA⟩ := getMeta_ok A "File A" k0 pA hgA
        obtain ⟨hcB, hpB⟩ := getMeta_ok B "File B" k0 pB hgB
        subst hpA
        subst hpB
        rw [hgA, hgB] at h
        simp only [] at h
        split at h
        · simp at h
        · split at h
          · simp at h
          · rename_i hguard hstats
            push_neg at hstats
            obtain ⟨hall, hsne⟩ := hstats
            injection h with h2
            refine ⟨h2.symm, ?_, hall⟩
            cases hsv : eng.statsOk with
            | false => exact absurd hsv hsne
            | true => rfl

/-- Deduplicating a nonempty constant list leaves a single element. -/
theorem dedup_replicate_succ {α : Type _} [DecidableEq α] (x : α) (n : Nat) :
    (List.replicate (n + 1) x).dedup = [x] := by
  induction n with
  | zero => rfl
  | succ m ih =>
      rw [List.replicate_succ,
        List.dedup_cons_of_mem (List.mem_replicate.mpr ⟨Nat.succ_ne_zero m, rfl⟩)]
      exact ih

/-- The distinct count of a nonempty constant-row frame is one on every
column. -/
theorem uniqueCount_const (sch : List (ColName × DType)) (row : Row)
    (c : ColName) (n : Nat) (hn : 0 < n) :
    uniqueCount { schema := sch, rows := List.replicate n row } c = 1 := by
  obtain ⟨m, rfl⟩ := Nat.exists_eq_succ_of_ne_zero (Nat.pos_iff_ne_zero.mp hn)
  unfold uniqueCount
  simp only [List.map_replicate]
  rw [dedup_replicate_succ]
  rfl

/-- An all-numeric integer cell. -/
def vI (n : Int) : Cell := some (Val.vNum (n : ℚ))

/-- Engine oracle: both full-table passes succeed. -/
def engTT : Engine := { statsOk := true, sampleOk := true }

/-- Engine oracle: statistics pass succeeds, sample pass fails. -/
def engTF : Engine := { statsOk := true, sampleOk := false }

/-- Engine oracle: both full-table passes fail. -/
def engFF : Engine := { statsOk := false, sampleOk := false }

/-- 1002 rows all sharing the key value 1 (1001 duplicates). -/
def bigA : DataFrame :=
  { schema := [("k", DType.int)], rows := List.replicate 1002 [vI 1] }

/-- 1002 rows all sharing the key value 2 (1001 duplicates). -/
def bigB : DataFrame :=
  { schema := [("k", DType.int)], rows := List.replicate 1002 [vI 2] }

/-- `bigA` has more than 1000 duplicate first-key values. -/
theorem bigA_dups : 1000 < bigA.rows.length - uniqueCount bigA "k" := by
  have h1 : bigA.rows.length = 1002 := by
    show (List.replicate 1002 ([vI 1] : Row)).length = 1002
    rw [List.length_replicate]
  have h2 : uniqueCount bigA "k" = 1 := by
    show uniqueCount
      { schema := [("k", DType.int)], rows := List.replicate 1002 [vI 1] } "k" = 1
    exact uniqueCount_const _ _ _ 1002 (by norm_num)
  omega

/-- `bigB` has more than 1000 duplicate first-key values. -/
theorem bigB_dups : 1000 < bigB.rows.length - uniqueCount bigB "k" := by
  have h1 : bigB.rows.length = 1002 := by
    show (List.replicate 1002 ([vI 2] : Row)).length = 1002
    rw [List.length_replicate]
  have h2 : uniqueCount bigB "k" = 1 := by
    show uniqueCount
      { schema := [("k", DType.int)], rows := List.replicate 1002 [vI 2] } "k" = 1
    exact uniqueCount_const _ _ _ 1002 (by norm_num)
  omega

/-- C1: the join-explosion guard aborts the diff with the explosion error
exactly when both inputs have more than 1000 duplicate first-key values
(duplicates being total rows minus distinct first-key values); whenever either
side has at most 1000 duplicates the call never returns the explosion error
and proceeds past the guard. The equivalence holds for every engine oracle, in
particular when both join passes would fail: the guard's verdict is reached
before any pass over the joined view runs. -/
theorem c1_explosion_guard (A B : DataFrame) (k0 : ColName) (ks : List ColName)
    (eng : Engine) (hA : A.hasCol k0 = true) (hB : B.hasCol k0 = true) :
    isExplosionResult (diff_files A B (k0 :: ks) eng) = true ↔
      (1000 < A.rows.length - uniqueCount A k0 ∧
       1000 < B.rows.length - uniqueCount B k0) := by
  have hgA : getMeta A "File A" k0
      = Except.ok (A.rows.length, uniqueCount A k0) := by
    unfold getMeta
    rw [if_pos hA]
  have hgB : getMeta B "File B" k0
      = Except.ok (B.rows.length, uniqueCount B k0) := by
    unfold getMeta
    rw [if_pos hB]
  simp only [diff_files]
  rw [hgA, hgB]
  simp only []
  constructor
  · intro h
    split at h
    · rename_i hc
      exact hc.2
    · split at h
      · simp [isExplosionResult] at h
      · simp [isExplosionResult] at h
  · rintro ⟨h1, h2⟩
    rw [if_pos ⟨Or.inl (by omega), h1, h2⟩]
    rfl

/-- Witness for C1: two 1002-row inputs, each with one repeated key value
(1001 duplicates per side), abort with the explosion error even under an
engine oracle on which every later pass would fail. -/
theorem c1_explosion_guard_witness :
    isExplosionResult (diff_files bigA bigB ["k"] engFF) = true :=
  (c1_explosion_guard bigA bigB "k" [] engFF (by decide) (by decide)).mpr
    ⟨bigA_dups, bigB_dups⟩

/-- C10: called with an empty key-column list, `diff_files` panics
(`keys_strs[0]` indexes out of bounds at the uniqueness probe, before any
structured error can be produced); the model maps the panic to `none`. -/
theorem c10_empty_keys_panics (A B : DataFrame) (eng : Engine) :
    diff_files A B [] eng = none := rfl

/-- Two rows sharing one key value on each side: 1 duplicate per side, below
the guard threshold, so the diff proceeds and the inner join has 4 rows. -/
def dupA : DataFrame :=
  { schema := [("k", DType.int)], rows := [[vI 1], [vI 1]] }

/-- See `dupA`. -/
def dupB : DataFrame :=
  { schema := [("k", DType.int)], rows := [[vI 1], [vI 1]] }

/-- Dataset A of the spec's worked scenario. -/
def exA : DataFrame :=
  { schema := [("id", DType.int), ("v", DType.int)],
    rows := [[vI 1, vI 10], [vI 2, vI 20], [vI 3, vI 30]] }

/-- Dataset B of the spec's worked scenario. -/
def exB : DataFrame :=
  { schema := [("id", DType.int), ("v", DType.int)],
    rows := [[vI 1, vI 10], [vI 2, vI 25], [vI 4, vI 40]] }

/-- A frame lacking the second requested key column "k2". -/
def frameA4 : DataFrame :=
  { schema := [("k1", DType.int), ("v", DType.int)], rows := [[vI 1, vI 10]] }

/-- A frame carrying both key columns. -/
def frameB4 : DataFrame :=
  { schema := [("k1", DType.int), ("k2", DType.int)], rows := [[vI 1, vI 2]] }

/-- Placeholder report for the extraction helper. -/
def emptyReport : DiffReport :=
  { totalRowsA := 0, totalRowsB := 0, matched := 0, identicalRows := 0,
    modifiedRows := 0, added := 0, removed := 0, columnStats := [] }

/-- Extract the report of a successful call (placeholder otherwise). -/
def getRep (o : Option (Except DiffError DiffReport)) : DiffReport :=
  match o with
  | some (Except.ok r) => r
  | _ => emptyReport

/-- Placeholder column record for the extraction helper. -/
def emptyStat : ColStat :=
  { columnName := "", isKey := false, sourceType := DType.other,
    targetType := none, allMatch := false }

/-- Extract a found column record (placeholder otherwise). -/
def getStat (o : Option ColStat) : ColStat := o.getD emptyStat

/-- The report of the duplicate-keys run. -/
def c2rep : DiffReport := getRep (diff_files dupA dupB ["k"] engTT)

/-- The report of the spec scenario run with a fully healthy engine. -/
def exRep : DiffReport := getRep (diff_files exA exB ["id"] engTT)

/-- The key column's stats record in the scenario report. -/
def statId : ColStat := getStat (findStat exRep "id")

/-- The value column's stats record in the scenario report. -/
def statV : ColStat := getStat (findStat exRep "v")

/-- C2 counterexample: with duplicate keys on both sides (one duplicate each,
far below the guard threshold) the inner join has 4 rows, `matched` is 4,
`removed` saturates to 0, and `matched + removed = 4 ≠ 2 = totalRowsA`: the
claimed identity fails on a successful diff. -/
theorem c2_counterexample :
    diff_files dupA dupB ["k"] engTT = some (Except.ok c2rep) ∧
    c2rep.matched + c2rep.removed ≠ c2rep.totalRowsA := ⟨rfl, by decide⟩

/-- C2 (amended): on every successful diff, `removed` and `added` are the
saturating differences `totalRowsA - matched` and `totalRowsB - matched`, so
`matched + removed = max matched totalRowsA` and
`matched + added = max matched totalRowsB`; the claimed plain identities hold
exactly when `matched` does not exceed the corresponding input height. -/
theorem c2_count_identities (A B : DataFrame) (ks : List ColName) (eng : Engine)
    (r : DiffReport) (h : diff_files A B ks eng = some (Except.ok r)) :
    r.removed = r.totalRowsA - r.matched ∧
    r.added = r.totalRowsB - r.matched ∧
    r.matched + r.removed = max r.matched r.totalRowsA ∧
    r.matched + r.added = max r.matched r.totalRowsB := by
  obtain ⟨hr, -, -⟩ := diff_files_ok_inv A B ks eng r h
  subst hr
  simp only [buildReport]
  refine ⟨by trivial, by trivial, ?_, ?_⟩ <;> omega

/-- Witness for the amended C2 at the duplicate-keys run. -/
theorem c2_count_identities_witness :
    c2rep.removed = c2rep.totalRowsA - c2rep.matched ∧
    c2rep.added = c2rep.totalRowsB - c2rep.matched ∧
    c2rep.matched + c2rep.removed = max c2rep.matched c2rep.totalRowsA ∧
    c2rep.matched + c2rep.added = max c2rep.matched c2rep.totalRowsB :=
  c2_count_identities dupA dupB ["k"] engTT c2rep rfl

/-- C3: on every successful diff the identical and modified row counts
partition the matched rows: `identicalRows + modifiedRows = matched`. The
modified count is the mask count over the joined rows (at most its length) and
the identical count is the saturating complement. -/
theorem c3_identical_plus_modified (A B : DataFrame) (ks : List ColName)
    (eng : Engine) (r : DiffReport)
    (h : diff_files A B ks eng = some (Except.ok r)) :
    r.identicalRows + r.modifiedRows = r.matched := by
  obtain ⟨hr, -, -⟩ := diff_files_ok_inv A B ks eng r h
  subst hr
  simp only [buildReport]
  unfold modifiedCount
  split
  · omega
  · have hle : (innerJoin A B ks).countP (rowMask A B (comparedColumns A B ks))
        ≤ (innerJoin A B ks).length := List.countP_le_length _
    omega

/-- Witness for C3 at the spec's worked scenario. -/
theorem c3_identical_plus_modified_witness :
    exRep.identicalRows + exRep.modifiedRows = exRep.matched :=
  c3_identical_plus_modified exA exB ["id"] engTT exRep rfl

/-- C4 counterexample: key column "k2" is requested and absent from A's
schema, yet the call does not fail in any pre-join schema check: both
uniqueness probes succeed on the first key, the guard passes, and the error
`diff_files` returns is the joined-aggregation-pass failure (the first
engine pass that executes the join plan), i.e. the failure surfaces after
join work has begun, not before. -/
theorem c4_counterexample :
    diff_files frameA4 frameB4 ["k1", "k2"] engTT
      = some (Except.error DiffError.statsError) := rfl

/-- C4 (amended): whenever some requested key column is absent from either
schema (nonempty key list), `diff_files` fails with a structured error rather
than returning a report — but not necessarily before join work: a missing
first key fails at the uniqueness probe, while a missing later key only fails
inside the statistics pass over the joined view. -/
theorem c4_missing_key_fails (A B : DataFrame) (k0 : ColName)
    (ks : List ColName) (eng : Engine)
    (h : ¬ (((k0 :: ks).all (fun k => A.hasCol k && B.hasCol k)) = true)) :
    isErrorResult (diff_files A B (k0 :: ks) eng) = true := by
  simp only [diff_files]
  cases hgA : getMeta A "File A" k0 with
  | error e => rfl
  | ok pA =>
    obtain ⟨hA, uA⟩ := pA
    cases hgB : getMeta B "File B" k0 with
    | error e => rfl
    | ok pB =>
      obtain ⟨hB, uB⟩ := pB
      simp only []
      split
      · rfl
      · rw [if_pos (Or.inl h)]
        rfl

/-- Witness for the amended C4 at the missing-"k2" frames. -/
theorem c4_missing_key_fails_witness :
    isErrorResult (diff_files frameA4 frameB4 ["k1", "k2"] engTT) = true :=
  c4_missing_key_fails frameA4 frameB4 "k1" ["k2"] engTT (by decide)

theorem mkColStat_columnName (A B : DataFrame) (keys : List ColName)
    (joined : List (Row × Row)) (matched : Nat)
    (buf : Option (List (Row × Row))) (name : ColName) (dtA : DType) :
    (mkColStat A B keys joined matched buf name dtA).columnName = name := by
  unfold mkColStat
  cases B.dtypeOf name with
  | none => rfl
  | some dtB => cases hk : keys.contains name <;> simp [hk]

theorem mkColStat_isKey (A B : DataFrame) (keys : List ColName)
    (joined : List (Row × Row)) (matched : Nat)
    (buf : Option (List (Row × Row))) (name : ColName) (dtA : DType) :
    (mkColStat A B keys joined matched buf name dtA).isKey
      = keys.contains name := by
  unfold mkColStat
  cases B.dtypeOf name with
  | none => rfl
  | some dtB => cases hk : keys.contains name <;> simp [hk]

theorem mkColStat_missing (A B : DataFrame) (keys : List ColName)
    (joined : List (Row × Row)) (matched : Nat)
    (buf : Option (List (Row × Row))) (name : ColName) (dtA : DType)
    (hB : B.dtypeOf name = none) :
    mkColStat A B keys joined matched buf name dtA =
      { columnName := name, isKey := keys.contains name, sourceType := dtA,
        targetType := none, allMatch := false } := by
  unfold mkColStat
  rw [hB]

theorem mkColStat_key (A B : DataFrame) (keys : List ColName)
    (joined : List (Row × Row)) (matched : Nat)
    (buf : Option (List (Row × Row))) (name : ColName) (dtA dtB : DType)
    (hB : B.dtypeOf name = some dtB) (hk : keys.contains name = true) :
    mkColStat A B keys joined matched buf name dtA =
      { columnName := name, isKey := true, sourceType := dtA,
        targetType := some dtB, totalCount := some matched,
        matchCount := some matched, nonMatchCount := some 0,
        matchRate := some 100, allMatch := true } := by
  unfold mkColStat
  rw [hB, hk]
  simp

theorem mkColStat_nonkey (A B : DataFrame) (keys : List ColName)
    (joined : List (Row × Row)) (matched : Nat)
    (buf : Option (List (Row × Row))) (name : ColName) (dtA dtB : DType)
    (hB : B.dtypeOf name = some dtB) (hk : keys.contains name = false) :
    mkColStat A B keys joined matched buf name dtA =
      { columnName := name, isKey := false, sourceType := dtA,
        targetType := some dtB, totalCount := some matched,
        matchCount := some (matched - joined.countP (colDiffers A B name)),
        nonMatchCount := some (joined.countP (colDiffers A B name)),
        matchRate := some
          (if 0 < matched then
            ((matched - joined.countP (colDiffers A B name) : Nat) : ℚ)
              / (matched : ℚ) * 100
           else 100),
        allMatch := joined.countP (colDiffers A B name) == 0,
        maxValueDiff :=
          if dtA.isNumeric && dtB.isNumeric then
            some (maxAbsDelta A B name joined)
          else none,
        nullCountDiff := some
          ((joined.countP (fun p => cellR B name p == (none : Cell)) : Int)
            - (joined.countP (fun p => cellL A name p == (none : Cell)) : Int)),
        sampleKeys :=
          (samplePick buf (colDiffers A B name)
              (joined.countP (colDiffers A B name))).map
            (fun l => l.map (keyDesc A keys)),
        sampleValues :=
          (samplePick buf (colDiffers A B name)
              (joined.countP (colDiffers A B name))).map
            (fun l => l.map (valDesc A B name)) } := by
  unfold mkColStat
  rw [hB, hk]
  simp

theorem findStat_buildReport (A B : DataFrame) (keys : List ColName)
    (so : Bool) (hgtA hgtB : Nat) (c : ColName) (s : ColStat)
    (h : findStat (buildReport A B keys so hgtA hgtB) c = some s) :
    ∃ dtA, (c, dtA) ∈ A.schema ∧
      s = mkColStat A B keys (innerJoin A B keys)
            (innerJoin A B keys).length (theBuf A B keys so) c dtA := by
  unfold findStat buildReport at h
  have hmem := List.mem_of_find?_eq_some h
  have hpred := List.find?_some h
  rcases List.mem_map.mp hmem with ⟨p, hp, hfp⟩
  have hcn : s.columnName = c := eq_of_beq hpred
  have hname : p.1 = c := by
    rw [← hfp, mkColStat_columnName] at hcn
    exact hcn
  refine ⟨p.2, ?_, ?_⟩
  · rw [← hname, Prod.mk.eta]
    exact hp
  · rw [← hfp, hname]

/-- Frame with a nullable value column, for the null-awareness witness. -/
def frameA5 : DataFrame :=
  { schema := [("id", DType.int), ("v", DType.int)],
    rows := [[vI 1, none]] }

/-- See `frameA5`. -/
def frameB5 : DataFrame :=
  { schema := [("id", DType.int), ("v", DType.int)],
    rows := [[vI 1, none]] }

/-- Row with a null value cell. -/
def rowNull : Row := [vI 1, none]

/-- Row with a non-null value cell. -/
def rowVal : Row := [vI 1, vI 9]

/-- C5: the per-column "differs" predicate the statistics pass counts with,
and feeds into the row-level modified mask, is null-aware: on a joined row
whose two sides are both null in column `c` the predicate is false and the
mask over `c :: cols` degenerates to the mask over `cols` (the column cannot
set the mask); a null paired with a non-null value makes the predicate true. -/
theorem c5_null_aware (A B : DataFrame) (c : ColName) (ra rb : Row)
    (cols : List ColName)
    (hL : cellL A c (ra, rb) = none) (hR : cellR B c (ra, rb) = none) :
    colDiffers A B c (ra, rb) = false ∧
    rowMask A B (c :: cols) (ra, rb) = rowMask A B cols (ra, rb) ∧
    (∀ ra2 rb2, cellL A c (ra2, rb2) = none → cellR B c (ra2, rb2) ≠ none →
      colDiffers A B c (ra2, rb2) = true) ∧
    (∀ ra2 rb2, cellL A c (ra2, rb2) ≠ none → cellR B c (ra2, rb2) = none →
      colDiffers A B c (ra2, rb2) = true) := by
  have hd : colDiffers A B c (ra, rb) = false := by
    unfold colDiffers eqMissing
    rw [hL, hR]
    rfl
  refine ⟨hd, ?_, ?_, ?_⟩
  · simp [rowMask, List.any_cons, hd]
  · intro ra2 rb2 h1 h2
    unfold colDiffers eqMissing
    rw [h1]
    cases hc : cellR B c (ra2, rb2) with
    | none => exact absurd hc h2
    | some v => rfl
  · intro ra2 rb2 h1 h2
    unfold colDiffers eqMissing
    rw [h2]
    cases hc : cellL A c (ra2, rb2) with
    | none => exact absurd hc h1
    | some v => rfl

/-- Witness for C5: both-null value cells do not differ and do not set the
mask; a null against the value 9 differs. -/
theorem c5_null_aware_witness :
    colDiffers frameA5 frameB5 "v" (rowNull, rowNull) = false ∧
    rowMask frameA5 frameB5 ["v"] (rowNull, rowNull)
      = rowMask frameA5 frameB5 [] (rowNull, rowNull) ∧
    colDiffers frameA5 frameB5 "v" (rowNull, rowVal) = true :=
  ⟨(c5_null_aware frameA5 frameB5 "v" rowNull rowNull [] rfl rfl).1,
   (c5_null_aware frameA5 frameB5 "v" rowNull rowNull [] rfl rfl).2.1,
   (c5_null_aware frameA5 frameB5 "v" rowNull rowNull [] rfl rfl).2.2.1
      rowNull rowVal rfl (by decide)⟩

/-- C6: on every successful diff, every stats record flagged as a key column
reports `matchCount = matched`, `nonMatchCount = 0` and a 100 percent match
rate (the assembly hard-codes these for key columns). -/
theorem c6_key_column_stats (A B : DataFrame) (ks : List ColName)
    (eng : Engine) (r : DiffReport)
    (h : diff_files A B ks eng = some (Except.ok r))
    (c : ColName) (s : ColStat) (hs : findStat r c = some s)
    (hk : s.isKey = true) :
    s.matchCount = some r.matched ∧ s.nonMatchCount = some 0 ∧
    s.matchRate = some 100 := by
  obtain ⟨hr, -, hall⟩ := diff_files_ok_inv A B ks eng r h
  subst hr
  rcases findStat_buildReport A B ks eng.sampleOk _ _ c s hs with ⟨dtA, hmem, hseq⟩
  have hkc : ks.contains c = true := by
    rw [hseq, mkColStat_isKey] at hk
    exact hk
  have hcmem : c ∈ ks := by
    simpa using hkc
  have hBc : B.hasCol c = true := by
    have hx := List.all_eq_true.mp hall c hcmem
    simp only [Bool.and_eq_true] at hx
    exact hx.2
  rcases hasCol_exists_dtype B c hBc with ⟨dtB, hdtB⟩
  rw [hseq, mkColStat_key A B ks _ _ _ _ _ dtB hdtB hkc]
  refine ⟨?_, rfl, rfl⟩
  simp [buildReport]

/-- Witness for C6 at the spec scenario: the key column "id". -/
theorem c6_key_column_stats_witness :
    statId.matchCount = some exRep.matched ∧ statId.nonMatchCount = some 0 ∧
    statId.matchRate = some 100 :=
  c6_key_column_stats exA exB ["id"] engTT exRep rfl "id" statId rfl (by decide)

theorem theBuf_some (A B : DataFrame) (keys : List ColName) (so : Bool)
    (rows : List (Row × Row)) (h : theBuf A B keys so = some rows) :
    rows = sampleBuffer A B keys := by
  unfold theBuf at h
  split at h
  · simp at h
  · split at h
    · injection h with h2
      exact h2.symm
    · simp at h

theorem samplePick_some (buf : Option (List (Row × Row)))
    (differs : Row × Row → Bool) (dc : Nat) (picked : List (Row × Row))
    (h : samplePick buf differs dc = some picked) :
    0 < dc ∧ ∃ rows, buf = some rows ∧ picked = (rows.filter differs).take 5 := by
  unfold samplePick at h
  split at h
  · rename_i hpos
    cases hbuf : buf with
    | none => rw [hbuf] at h; simp at h
    | some rows =>
        rw [hbuf] at h
        injection h with h2
        exact ⟨hpos, rows, rfl, h2.symm⟩
  · simp at h

/-- C7: on every successful diff, a populated per-column mismatch sample list
has at most 5 entries, is only populated when the column's nonMatchCount is
positive, and its entries are the first at-most-5 rows, restricted to the
rows where that very column differs, of the single shared at-most-100-row
buffer of mask-matching joined rows (one buffer shared by all columns, not a
per-column scan of the join). -/
theorem c7_sample_bounds (A B : DataFrame) (ks : List ColName) (eng : Engine)
    (r : DiffReport) (h : diff_files A B ks eng = some (Except.ok r))
    (c : ColName) (s : ColStat) (sv : List String)
    (hs : findStat r c = some s) (hv : s.sampleValues = some sv) :
    sv.length ≤ 5 ∧
    s.nonMatchCount = some ((innerJoin A B ks).countP (colDiffers A B c)) ∧
    0 < (innerJoin A B ks).countP (colDiffers A B c) ∧
    (sampleBuffer A B ks).length ≤ 100 ∧
    sv = (((sampleBuffer A B ks).filter (colDiffers A B c)).take 5).map
          (valDesc A B c) ∧
    s.sampleKeys = some
      ((((sampleBuffer A B ks).filter (colDiffers A B c)).take 5).map
        (keyDesc A ks)) := by
  obtain ⟨hr, -, -⟩ := diff_files_ok_inv A B ks eng r h
  subst hr
  rcases findStat_buildReport A B ks eng.sampleOk _ _ c s hs with ⟨dtA, hmem, hseq⟩
  cases hdt : B.dtypeOf c with
  | none =>
      rw [hseq, mkColStat_missing _ _ _ _ _ _ _ _ hdt] at hv
      simp at hv
  | some dtB =>
      cases hkc : ks.contains c with
      | true =>
          rw [hseq, mkColStat_key _ _ _ _ _ _ _ _ dtB hdt hkc] at hv
          simp at hv
      | false =>
          rw [hseq, mkColStat_nonkey _ _ _ _ _ _ _ _ dtB hdt hkc] at hv
          rw [hseq, mkColStat_nonkey _ _ _ _ _ _ _ _ dtB hdt hkc]
          simp only [Option.map_eq_some'] at hv
          rcases hv with ⟨picked, hpick, hsv⟩
          rcases samplePick_some _ _ _ _ hpick with ⟨hpos, rows, hbuf, hpicked⟩
          have hrows : rows = sampleBuffer A B ks := theBuf_some A B ks _ rows hbuf
          subst hrows
          subst hpicked
          refine ⟨?_, rfl, hpos, ?_, hsv.symm, ?_⟩
          · rw [← hsv]
            rw [List.length_map]
            exact List.length_take_le _ _
          · unfold sampleBuffer
            exact List.length_take_le _ _
          · rw [hpick]
            rfl

/-- The value column's sample list in the scenario report. -/
def sv7 : List String := statV.sampleValues.getD []

/-- Witness for C7 at the spec scenario: the "v" column's one-entry sample
list respects the caps and equals the shared-buffer extraction. -/
theorem c7_sample_bounds_witness :
    sv7.length ≤ 5 ∧
    statV.nonMatchCount
      = some ((innerJoin exA exB ["id"]).countP (colDiffers exA exB "v")) ∧
    0 < (innerJoin exA exB ["id"]).countP (colDiffers exA exB "v") ∧
    (sampleBuffer exA exB ["id"]).length ≤ 100 ∧
    sv7 = (((sampleBuffer exA exB ["id"]).filter
            (colDiffers exA exB "v")).take 5).map (valDesc exA exB "v") ∧
    statV.sampleKeys = some
      ((((sampleBuffer exA exB ["id"]).filter
          (colDiffers exA exB "v")).take 5).map (keyDesc exA ["id"])) :=
  c7_sample_bounds exA exB ["id"] engTT exRep rfl "v" statV sv7 rfl rfl

/-- One-column frame whose only column is the (numeric) key. -/
def frameK8 : DataFrame := { schema := [("id", DType.int)], rows := [[vI 1]] }

/-- Report of diffing `frameK8` against itself on its key. -/
def rep8 : DiffReport := getRep (diff_files frameK8 frameK8 ["id"] engTT)

/-- The key column's stats record in `rep8`. -/
def stat8 : ColStat := getStat (findStat rep8 "id")

/-- C8 counterexample: the key column "id" has numeric declared types on both
sides, yet its stats record carries no `max_value_diff` field — the assembly
only computes the numeric delta for non-key columns, so "present iff both
types numeric" fails on key columns. -/
theorem c8_counterexample :
    diff_files frameK8 frameK8 ["id"] engTT = some (Except.ok rep8) ∧
    stat8.sourceType.isNumeric = true ∧
    stat8.targetType.map DType.isNumeric = some true ∧
    stat8.maxValueDiff = none := ⟨rfl, by decide, by decide, by decide⟩

/-- C8 (amended): on every successful diff, a column's `max_value_diff` field
is present iff the column is a non-key column, present in both schemas, with
numeric declared types on both sides; when present it equals the maximum of
the absolute differences of the two sides' values cast to numeric over the
joined rows (rows with a null or non-castable side contribute nothing, and
the maximum defaults to 0 when no row contributes). -/
theorem c8_numeric_delta (A B : DataFrame) (ks : List ColName) (eng : Engine)
    (r : DiffReport) (h : diff_files A B ks eng = some (Except.ok r))
    (c : ColName) (s : ColStat) (hs : findStat r c = some s) :
    (s.maxValueDiff.isSome = true ↔
      (s.isKey = false ∧ s.sourceType.isNumeric = true ∧
       s.targetType.map DType.isNumeric = some true)) ∧
    (∀ q, s.maxValueDiff = some q →
      q = maxAbsDelta A B c (innerJoin A B ks)) := by
  obtain ⟨hr, -, -⟩ := diff_files_ok_inv A B ks eng r h
  subst hr
  rcases findStat_buildReport A B ks eng.sampleOk _ _ c s hs with ⟨dtA, hmem, hseq⟩
  cases hdt : B.dtypeOf c with
  | none =>
      rw [hseq, mkColStat_missing _ _ _ _ _ _ _ _ hdt]
      constructor
      · simp
      · intro q hq
        simp at hq
  | some dtB =>
      cases hkc : ks.contains c with
      | true =>
          rw [hseq, mkColStat_key _ _ _ _ _ _ _ _ dtB hdt hkc]
          constructor
          · simp
          · intro q hq
            simp at hq
      | false =>
          rw [hseq, mkColStat_nonkey _ _ _ _ _ _ _ _ dtB hdt hkc]
          constructor
          · cases hnum : dtA.isNumeric && dtB.isNumeric with
            | true =>
                simp only [Bool.and_eq_true] at hnum
                simp [hnum.1, hnum.2]
            | false =>
                constructor
                · intro hF
                  simp at hF
                · rintro ⟨-, h1, h2⟩
                  simp only [Option.map_some', Option.some.injEq] at h2
                  rw [h1, h2] at hnum
                  simp at hnum
          · intro q hq
            simp only [] at hq
            split at hq
            · injection hq with h2
              exact h2.symm
            · simp at hq

/-- Witness for the amended C8 at the spec scenario: the non-key numeric
column "v" (both sides typed Int) carries the `max_value_diff` field, as the
presence condition demands. -/
theorem c8_numeric_delta_witness :
    statV.maxValueDiff.isSome = true ↔
      (statV.isKey = false ∧ statV.sourceType.isNumeric = true ∧
       statV.targetType.map DType.isNumeric = some true) :=
  (c8_numeric_delta exA exB ["id"] engTT exRep rfl "v" statV rfl).1

theorem samplePick_buf_none (differs : Row × Row → Bool) (dc : Nat) :
    samplePick none differs dc = none := by
  unfold samplePick
  split
  · rfl
  · rfl

theorem mkColStat_buf_none (A B : DataFrame) (keys : List ColName)
    (joined : List (Row × Row)) (matched : Nat) (name : ColName) (dtA : DType) :
    (mkColStat A B keys joined matched none name dtA).sampleValues = none ∧
    (mkColStat A B keys joined matched none name dtA).sampleKeys = none := by
  cases hdt : B.dtypeOf name with
  | none =>
      rw [mkColStat_missing _ _ _ _ _ _ _ _ hdt]
      exact ⟨rfl, rfl⟩
  | some dtB =>
      cases hk : keys.contains name with
      | true =>
          rw [mkColStat_key _ _ _ _ _ _ _ _ dtB hdt hk]
          exact ⟨rfl, rfl⟩
      | false =>
          rw [mkColStat_nonkey _ _ _ _ _ _ _ _ dtB hdt hk]
          rw [samplePick_buf_none]
          exact ⟨rfl, rfl⟩

/-- The report of the spec scenario run when the sample pass fails. -/
def rep9 : DiffReport := getRep (diff_files exA exB ["id"] engTF)

/-- The value column's stats record in `rep9`. -/
def statV9 : ColStat := getStat (findStat rep9 "v")

/-- C9 counterexample: when the sample-materialization pass fails
(`collect().ok()` yields nothing), `diff_files` does not abort: it returns a
successful report whose "v" column has a positive nonMatchCount but no sample
lists — a partial report despite a failed engine pass. -/
theorem c9_counterexample :
    diff_files exA exB ["id"] engTF = some (Except.ok rep9) ∧
    engTF.sampleOk = false ∧
    statV9.nonMatchCount = some 1 ∧
    statV9.sampleValues = none ∧
    statV9.sampleKeys = none :=
  ⟨rfl, rfl, by decide, by decide, by decide⟩

/-- C9 (amended): a failure of the uniqueness probes or of the batched
statistics pass aborts the whole call with an error (a report is only ever
returned when the statistics pass succeeded), but a failure of the
sample-materialization pass is swallowed: the call still returns a report,
with every column's sample lists absent. -/
theorem c9_stats_abort_sample_swallowed (A B : DataFrame) (ks : List ColName)
    (eng : Engine) (r : DiffReport)
    (h : diff_files A B ks eng = some (Except.ok r)) :
    eng.statsOk = true ∧
    (eng.sampleOk = false → ∀ s, s ∈ r.columnStats →
      s.sampleValues = none ∧ s.sampleKeys = none) := by
  obtain ⟨hr, hstats, -⟩ := diff_files_ok_inv A B ks eng r h
  refine ⟨hstats, ?_⟩
  intro hso s hsmem
  subst hr
  simp only [buildReport] at hsmem
  rcases List.mem_map.mp hsmem with ⟨p, hp, hfp⟩
  have hbuf : theBuf A B ks eng.sampleOk = none := by
    unfold theBuf
    rw [hso]
    split
    · rfl
    · rfl
  rw [hbuf] at hfp
  rw [← hfp]
  exact mkColStat_buf_none A B ks _ _ p.1 p.2

/-- Witness for the amended C9: the failed-sample-pass run returns a report,
its engine had a successful statistics pass, and the "v" column's sample
lists are absent. -/
theorem statV9_mem : statV9 ∈ rep9.columnStats :=
  List.mem_of_find?_eq_some
    (show rep9.columnStats.find? (fun s => s.columnName == "v") = some statV9
      from rfl)

theorem c9_stats_abort_sample_swallowed_witness :
    engTF.statsOk = true ∧
    (statV9.sampleValues = none ∧ statV9.sampleKeys = none) :=
  ⟨(c9_stats_abort_sample_swallowed exA exB ["id"] engTF rep9 rfl).1,
   (c9_stats_abort_sample_swallowed exA exB ["id"] engTF rep9 rfl).2 rfl
     statV9 statV9_mem⟩

end KoalaDiff
